import Mathlib

/-!
Verification of the bug-report lifecycle core of this repository
(`src/bug_reports/bug_report.py`).

The SQLite table `bug_reports` is embedded as a list of `Bug` records in
insertion (rowid) order.  `CURRENT_TIMESTAMP` is modelled by an explicit
`now : Nat` argument to every mutating operation; the human-readable
timestamp strings interpolated into note blocks are modelled by an explicit
`ts : String` argument.  `UPDATE ... WHERE bug_id = ?` is embedded as
`updateWhere`, and `ORDER BY` clauses as stable insertion sorts by the
relation read off the SQL ordering key.  External effects (HTML rendering,
screenshot files, logging) are outside the store and are not part of the
embedding; the user-visible report of an operation is modelled as an
`OpOutcome` value mirroring the `client_log` call the code makes.
-/

/-- One row of the `bug_reports` table, fields as in the CREATE TABLE of
`_init_bug_db` (plus the two ALTER TABLE columns).  Nullable columns are
`Option`; timestamps are `Nat`. -/
structure Bug where
  bug_id : String
  user_id : String
  username : String
  session_id : Option String
  title : String
  description : String
  reproduction_steps : Option String
  severity : Option String
  category : Option String
  system_info : Option String
  log_context : Option String
  screenshot_path : Option String
  screenshot_name : Option String
  status : String
  assigned_to : Option String
  assigned_at : Option Nat
  progress_notes : Option String
  reported_at : Nat
  updated_at : Nat
deriving DecidableEq, Repr

/-- The persistent relation, rows in rowid order. -/
abbrev Store := List Bug

/-- `SELECT ... WHERE bug_id = ?` followed by `fetchone()`. -/
def getBug (s : Store) (id : String) : Option Bug :=
  s.find? (fun b => b.bug_id == id)

/-- `UPDATE bug_reports SET ... WHERE bug_id = ?`: rewrite every row whose
`bug_id` matches (the id is a primary key, but the SQL itself is a
filter-and-rewrite over all rows). -/
def updateWhere (s : Store) (id : String) (f : Bug → Bug) : Store :=
  s.map (fun b => if b.bug_id == id then f b else b)

/-- Result reported back to the caller: the operations here either log a
success line or a not-found line (`client_log`). -/
inductive OpOutcome where
  | successLog (msg : String)
  | notFoundLog (msg : String)
deriving DecidableEq

/-- `submit_bug_report`: INSERT of a fresh row with `status = 'New'`; the
handler performs no validation of `title` or `description`.  The screenshot
branch only writes a file outside the store and is modelled as absent.
Returns the new store and the generated `bug_id`. -/
def submit_bug_report (s : Store) (uid uname sid : String)
    (title description : String)
    (reproduction_steps log_context : Option String)
    (sysinfo : String) (bug_id : String) (now : Nat) : Store × String :=
  (s ++ [{ bug_id := bug_id, user_id := uid, username := uname,
           session_id := some sid, title := title, description := description,
           reproduction_steps := reproduction_steps, severity := none,
           category := none, system_info := some sysinfo,
           log_context := log_context, screenshot_path := none,
           screenshot_name := none, status := "New", assigned_to := none,
           assigned_at := none, progress_notes := none,
           reported_at := now, updated_at := now }], bug_id)

/-- The `"none"`-string normalisation at the top of `list_bug_reports`
combined with the later `if status:` truthiness test: the effective filter
is dropped when the argument is absent, empty, or the literal "none". -/
def normFilter (o : Option String) : Option String :=
  match o with
  | none => none
  | some v => if v = "" then none else if v.toLower = "none" then none else some v

/-- SQL `severity = ?` on a nullable column: NULL matches nothing. -/
def severityMatches (sev : Option String) (v : String) : Bool :=
  match sev with
  | some x => x == v
  | none => false

/-- `ORDER BY reported_at DESC`. -/
def reportedDesc (a b : Bug) : Prop := b.reported_at ≤ a.reported_at

instance : DecidableRel reportedDesc := fun a b => by
  unfold reportedDesc; exact inferInstance

/-- SQLite `LIMIT ?`: a negative limit means no limit. -/
def takeLimit (limit : Int) (l : List Bug) : List Bug :=
  if limit < 0 then l else l.take limit.toNat

/-- `list_bug_reports`: rows with `status NOT IN ('Dismissed','Resolved')`,
optionally filtered by exact status and severity, ordered by
`reported_at DESC`, then limited. -/
def list_bug_reports (s : Store) (statusF severityF : Option String)
    (limit : Int) : List Bug :=
  let st := normFilter statusF
  let sev := normFilter severityF
  let rows := s.filter (fun b =>
    (!(b.status == "Dismissed" || b.status == "Resolved")) &&
    (match st with | some v => b.status == v | none => true) &&
    (match sev with | some v => severityMatches b.severity v | none => true))
  takeLimit limit (List.insertionSort reportedDesc rows)

/-- `update_bug_severity`: empty severity is normalised to NULL; the UPDATE
runs whether or not the id exists, and the handler always logs success. -/
def update_bug_severity (s : Store) (bug_id severity : String)
    (now : Nat) : Store × OpOutcome :=
  let sevN : Option String := if severity = "" then none else some severity
  (updateWhere s bug_id (fun b => { b with severity := sevN, updated_at := now }),
   .successLog ("✅ Bug " ++ bug_id ++ " severity updated to " ++
     (if severity = "" then "None" else severity)))

/-- `update_bug_status`: writes the given status unconditionally (no check
of the current status) and always logs success. -/
def update_bug_status (s : Store) (bug_id status : String)
    (now : Nat) : Store × OpOutcome :=
  (updateWhere s bug_id (fun b => { b with status := status, updated_at := now }),
   .successLog ("✅ Bug " ++ bug_id ++ " status updated to " ++ status))

/-- `_resolve_bug`: sets `status = 'Resolved'` unconditionally and always
logs success. -/
def resolve_bug (s : Store) (bug_id : String) (now : Nat) : Store × OpOutcome :=
  (updateWhere s bug_id (fun b => { b with status := "Resolved", updated_at := now }),
   .successLog ("✅ Bug " ++ bug_id ++ " marked as Resolved!"))

/-- Python `str.split(',')` over the character list (structural recursion
so concrete instances compute); `"".split(',')` is `[""]`. -/
def splitCommaChars : List Char → List (List Char)
  | [] => [[]]
  | c :: rest =>
    if c = ',' then [] :: splitCommaChars rest
    else
      match splitCommaChars rest with
      | [] => [[c]]
      | g :: gs => (c :: g) :: gs

/-- Python `str.split(',')`. -/
def splitComma (s : String) : List String :=
  (splitCommaChars s.data).map List.asString

/-- Python whitespace for `str.strip()`. -/
def isPyWs (c : Char) : Bool :=
  c == ' ' || c == '\t' || c == '\n' || c == '\r' || c == '\x0b' || c == '\x0c'

/-- Python `str.strip()`: drop whitespace from both ends. -/
def pyStrip (s : String) : String :=
  (((s.data.dropWhile isPyWs).reverse.dropWhile isPyWs).reverse).asString

/-- `[b.strip() for b in bug_ids.split(',') if b.strip()]`. -/
def parseBugIds (bug_ids : String) : List String :=
  ((splitComma bug_ids).map pyStrip).filter (fun b => !(b == ""))

/-- The row rewrite of the UPDATE inside `_assign_bugs_to_me`. -/
def updAssign (user : String) (now : Nat) (b : Bug) : Bug :=
  { b with assigned_to := some user, assigned_at := some now,
           status := "Assigned", updated_at := now }

/-- One iteration of the `_assign_bugs_to_me` loop: the UPDATE has no
condition beyond `bug_id = ?`. -/
def assignOne (user : String) (now : Nat) (s : Store) (bug_id : String) : Store :=
  updateWhere s bug_id (updAssign user now)

/-- `_assign_bugs_to_me`: loops over the parsed ids, running the UPDATE and
incrementing `assigned_count` for every id.  Returns the store and the
reported count. -/
def assign_bugs_to_me (s : Store) (bug_ids username : String)
    (now : Nat) : Store × Nat :=
  (parseBugIds bug_ids).foldl
    (fun acc bug_id => (assignOne username now acc.1 bug_id, acc.2 + 1)) (s, 0)

/-- The `CASE severity WHEN ... ELSE 5 END` ranking (NULL falls to ELSE). -/
def sevRank (sev : Option String) : Nat :=
  match sev with
  | some "Critical" => 1
  | some "High" => 2
  | some "Medium" => 3
  | some "Low" => 4
  | _ => 5

/-- Ordering key of `assign_bugs_interactive`: severity rank ascending,
then `reported_at DESC`. -/
def assignPickerOrder (a b : Bug) : Prop :=
  sevRank a.severity < sevRank b.severity ∨
    (sevRank a.severity = sevRank b.severity ∧ b.reported_at ≤ a.reported_at)

instance : DecidableRel assignPickerOrder := fun a b => by
  unfold assignPickerOrder; exact inferInstance

/-- SQLite comparison key for a nullable timestamp under DESC: NULL sorts
below every value. -/
def assignedAtRank (o : Option Nat) : Nat :=
  match o with
  | none => 0
  | some n => n + 1

/-- Ordering key of `my_assigned_bugs_table` (and `my_assigned_bugs_html`):
severity rank ascending, then `assigned_at DESC`. -/
def todoOrder (a b : Bug) : Prop :=
  sevRank a.severity < sevRank b.severity ∨
    (sevRank a.severity = sevRank b.severity ∧
      assignedAtRank b.assigned_at ≤ assignedAtRank a.assigned_at)

instance : DecidableRel todoOrder := fun a b => by
  unfold todoOrder; exact inferInstance

/-- Ordering key of `bugs_ready_for_testing`: the SQL orders by the
severity CASE expression only — there is no secondary key. -/
def testerOrder (a b : Bug) : Prop :=
  sevRank a.severity ≤ sevRank b.severity

instance : DecidableRel testerOrder := fun a b => by
  unfold testerOrder; exact inferInstance

/-- `assigned_to IS NULL OR assigned_to = ''`. -/
def isUnassigned (o : Option String) : Bool :=
  match o with
  | none => true
  | some v => v == ""

/-- The SELECT of `assign_bugs_interactive`: unassigned bugs in `New` or
`Triaged`, ordered by severity rank then `reported_at DESC`. -/
def assign_bugs_interactive (s : Store) : List Bug :=
  List.insertionSort assignPickerOrder
    (s.filter (fun b =>
      (b.status == "New" || b.status == "Triaged") && isUnassigned b.assigned_to))

/-- The SELECT of `my_assigned_bugs_table`: rows assigned to the caller
(username or client id), excluding terminal statuses, ordered by severity
rank then `assigned_at DESC`. -/
def my_assigned_bugs_table (s : Store) (username client_id : String) : List Bug :=
  List.insertionSort todoOrder
    (s.filter (fun b =>
      (b.assigned_to == some username || b.assigned_to == some client_id) &&
      !(b.status == "Resolved" || b.status == "Dismissed")))

/-- The SELECT of `bugs_ready_for_testing`: rows with
`status = 'Good-to-Test'`, ordered by severity rank alone. -/
def bugs_ready_for_testing (s : Store) : List Bug :=
  List.insertionSort testerOrder (s.filter (fun b => b.status == "Good-to-Test"))

/-- One entry of the JSON list handed to `_save_bug_progress`. -/
structure ProgressUpdate where
  bug_id : String
  status : String
  notes : String
deriving DecidableEq

/-- `_save_bug_progress`: for each update the SQL is
`SET status = ?, progress_notes = ?` — the submitted notes text replaces
the stored `progress_notes` outright. -/
def save_bug_progress (s : Store) (updates : List ProgressUpdate)
    (now : Nat) : Store :=
  updates.foldl (fun acc u =>
    updateWhere acc u.bug_id (fun b =>
      { b with status := u.status, progress_notes := some u.notes,
               updated_at := now })) s

/-- `row[0] if row and row[0] else ""` over `progress_notes`. -/
def notesStr (b : Bug) : String := b.progress_notes.getD ""

/-- The note block `_send_bug_back_to_dev` builds before appending. -/
def sendBackNote (ts tester notes : String) : String :=
  "\n\n[" ++ ts ++ "] Sent back by " ++ tester ++ ":\n" ++ notes

/-- `_send_bug_back_to_dev`: reads the current `progress_notes` of the row,
appends a timestamped tester block, and writes `status = 'Assigned'`. -/
def send_bug_back_to_dev (s : Store) (bug_id tester ts notes : String)
    (now : Nat) : Store :=
  let current := match getBug s bug_id with
    | some b => notesStr b
    | none => ""
  updateWhere s bug_id (fun b =>
    { b with status := "Assigned",
             progress_notes := some (current ++ sendBackNote ts tester notes),
             updated_at := now })

/-- The note block `ai_fix_bug` builds before appending. -/
def fixNote (ts ai_name fix_notes : String) : String :=
  "\n\n[" ++ ts ++ "] Fixed by " ++ ai_name ++ ":\n" ++ fix_notes

/-- `ai_fix_bug`: the one mutating handler with a not-found branch; appends
the fix block to `progress_notes` and sets `status = 'Good-to-Test'`. -/
def ai_fix_bug (s : Store) (bug_id fix_notes ai_name ts : String)
    (now : Nat) : Store × OpOutcome :=
  match getBug s bug_id with
  | none => (s, .notFoundLog ("❌ Bug " ++ bug_id ++ " not found"))
  | some b =>
    (updateWhere s bug_id (fun r =>
      { r with status := "Good-to-Test",
               progress_notes := some (notesStr b ++ fixNote ts ai_name fix_notes),
               updated_at := now }),
     .successLog "✅ Bug Fixed and Ready for Testing")

/-- One item of the `ai_manage_bugs` updates array; every field optional. -/
structure AiUpdate where
  bug_id : Option String
  severity : Option String
  category : Option String
  status : Option String
  notes : Option String
deriving DecidableEq

/-- Aggregate state of `ai_manage_bugs`: the store plus the `applied` and
`errors` report lists. -/
structure AiResult where
  store : Store
  applied : List String
  errors : List String
deriving DecidableEq

/-- One iteration of the `ai_manage_bugs` loop.  A missing or empty
`bug_id` is recorded as an error and the item is skipped.  Otherwise each
truthy field runs its own `UPDATE ... WHERE bug_id = ?` (affecting zero
rows when the id does not exist) and pushes an applied message.  The notes
branch first runs `SELECT notes FROM bug_reports`, and the table created by
`_init_bug_db` has no `notes` column, so that branch raises
`sqlite3.OperationalError`, which the per-item handler converts into an
error entry (per-statement commit granularity is not modelled). -/
def processAiUpdate (now : Nat) (acc : AiResult) (u : AiUpdate) : AiResult :=
  match u.bug_id with
  | none => { acc with errors := acc.errors ++ ["Missing bug_id"] }
  | some id =>
    if id = "" then { acc with errors := acc.errors ++ ["Missing bug_id"] }
    else
      let p1 : Store × List String :=
        match u.severity with
        | some v =>
          if v = "" then (acc.store, acc.applied)
          else (updateWhere acc.store id
                  (fun b => { b with severity := some v, updated_at := now }),
                acc.applied ++ ["Bug " ++ (id.data.take 8).asString ++ " severity → " ++ v])
        | none => (acc.store, acc.applied)
      let p2 : Store × List String :=
        match u.category with
        | some v =>
          if v = "" then p1
          else (updateWhere p1.1 id
                  (fun b => { b with category := some v, updated_at := now }),
                p1.2 ++ ["Bug " ++ (id.data.take 8).asString ++ " category → " ++ v])
        | none => p1
      let p3 : Store × List String :=
        match u.status with
        | some v =>
          if v = "" then p2
          else (updateWhere p2.1 id
                  (fun b => { b with status := v, updated_at := now }),
                p2.2 ++ ["Bug " ++ (id.data.take 8).asString ++ " status → " ++ v])
        | none => p2
      match u.notes with
      | some v =>
        if v = "" then { store := p3.1, applied := p3.2, errors := acc.errors }
        else { store := p3.1, applied := p3.2,
               errors := acc.errors ++ ["no such column: notes"] }
      | none => { store := p3.1, applied := p3.2, errors := acc.errors }

/-- `ai_manage_bugs`: folds the per-item processor over the updates array,
never aborting the batch. -/
def ai_manage_bugs (s : Store) (updates : List AiUpdate) (now : Nat) : AiResult :=
  updates.foldl (processAiUpdate now) { store := s, applied := [], errors := [] }

/-- Modelled from the spec (section 4.1): the edge set of the lifecycle
state machine, in the status strings the code stores.  This is the
spec-side definition the observed transitions are compared against. -/
def specValidEdge (f t : String) : Bool :=
  ((f == "New" || f == "Triaged") && t == "Triaged") ||
  ((f == "New" || f == "Triaged") && t == "Assigned") ||
  (f == "Assigned" && t == "In Progress") ||
  (f == "In Progress" && t == "Good-to-Test") ||
  (f == "Good-to-Test" && t == "Resolved") ||
  (f == "Good-to-Test" && t == "Assigned") ||
  (!(f == "Resolved" || f == "Dismissed") && t == "Dismissed")

/-- String x is a prefix of string y. -/
def strPrefixOf (x y : String) : Prop := ∃ t, y = x ++ t

/-! ### Helper lemmas -/

lemma mem_updateWhere {s : Store} {id : String} {f : Bug → Bug} {b : Bug}
    (hb : b ∈ updateWhere s id f) :
    ∃ a ∈ s, b = if a.bug_id == id then f a else a := by
  unfold updateWhere at hb
  rcases List.mem_map.mp hb with ⟨a, ha, hfa⟩
  exact ⟨a, ha, hfa.symm⟩

lemma updateWhere_id_not_mem {s : Store} {id : String} {f : Bug → Bug}
    (h : id ∉ s.map Bug.bug_id) : updateWhere s id f = s := by
  induction s with
  | nil => rfl
  | cons a t ih =>
    simp only [List.map_cons, List.mem_cons, not_or] at h
    have ha : (a.bug_id == id) = false := by
      rw [beq_eq_false_iff_ne]
      exact fun e => h.1 e.symm
    unfold updateWhere
    simp only [List.map_cons, ha, Bool.false_eq_true, if_false]
    have ht := ih h.2
    unfold updateWhere at ht
    rw [ht]

lemma updateWhere_map_bug_id {s : Store} {id : String} {f : Bug → Bug}
    (hf : ∀ b, (f b).bug_id = b.bug_id) :
    (updateWhere s id f).map Bug.bug_id = s.map Bug.bug_id := by
  unfold updateWhere
  rw [List.map_map]
  apply List.map_congr_left
  intro a _
  cases hc : a.bug_id == id with
  | true => simp only [Function.comp_apply, hc, if_true, hf]
  | false => simp only [Function.comp_apply, hc, Bool.false_eq_true, if_false]

lemma getBug_updateWhere (s : Store) (id : String) (f : Bug → Bug)
    (hf : ∀ b, (f b).bug_id = b.bug_id) :
    getBug (updateWhere s id f) id = (getBug s id).map f := by
  induction s with
  | nil => rfl
  | cons a t ih =>
    cases hc : a.bug_id == id with
    | true =>
      have hfa : ((f a).bug_id == id) = true := by rw [hf]; exact hc
      unfold getBug updateWhere
      simp only [List.map_cons, hc, if_true, List.find?_cons, hfa]
      rfl
    | false =>
      unfold getBug updateWhere
      simp only [List.map_cons, hc, Bool.false_eq_true, if_false,
        List.find?_cons]
      exact ih

lemma getBug_isSome {s : Store} {id : String}
    (h : id ∈ s.map Bug.bug_id) : ∃ a, getBug s id = some a := by
  induction s with
  | nil => simp at h
  | cons a t ih =>
    simp only [List.map_cons, List.mem_cons] at h
    cases hc : a.bug_id == id with
    | true => exact ⟨a, by unfold getBug; simp [List.find?_cons, hc]⟩
    | false =>
      rcases h with h | h
      · rw [beq_eq_false_iff_ne] at hc
        exact absurd h.symm hc
      · rcases ih h with ⟨b, hb⟩
        refine ⟨b, ?_⟩
        unfold getBug at hb ⊢
        simp [List.find?_cons, hc, hb]

lemma getBug_bug_id {s : Store} {id : String} {b : Bug}
    (h : getBug s id = some b) : b.bug_id = id := by
  have hp := List.find?_some h
  exact beq_iff_eq.mp hp

/-- The fold of `_assign_bugs_to_me` splits into the store part and the
count part. -/
lemma assign_fold_split (ids : List String) (user : String) (now : Nat)
    (s : Store) (k : Nat) :
    (ids.foldl (fun acc bug_id => (assignOne user now acc.1 bug_id, acc.2 + 1))
      ((s, k) : Store × Nat)) =
    (ids.foldl (assignOne user now) s, k + ids.length) := by
  induction ids generalizing s k with
  | nil => simp
  | cons i t ih =>
    simp only [List.foldl_cons, List.length_cons, ih]
    have harith : k + 1 + t.length = k + (t.length + 1) := by omega
    rw [harith]

lemma updAssign_bug_id (user : String) (now : Nat) (b : Bug) :
    (updAssign user now b).bug_id = b.bug_id := rfl

lemma updAssign_updAssign (user : String) (t1 t2 : Nat) (b : Bug) :
    updAssign user t2 (updAssign user t1 b) = updAssign user t2 b := by
  cases b; rfl

/-- Characterisation of the assignment loop as a single pass over rows. -/
lemma assign_fold_map (ids : List String) (user : String) (now : Nat)
    (s : Store) :
    ids.foldl (assignOne user now) s =
      s.map (fun b => if b.bug_id ∈ ids then updAssign user now b else b) := by
  induction ids generalizing s with
  | nil => simp
  | cons i t ih =>
    simp only [List.foldl_cons, ih]
    unfold assignOne updateWhere
    rw [List.map_map]
    apply List.map_congr_left
    intro a _
    cases hc : a.bug_id == i with
    | true =>
      have he : a.bug_id = i := beq_iff_eq.mp hc
      simp only [Function.comp_apply, hc, if_true, updAssign_bug_id, he,
        List.mem_cons, true_or, if_true]
      by_cases hm : i ∈ t
      · simp [hm, updAssign_updAssign]
      · rw [if_neg (by simp only [beq_self_eq_true, if_true, updAssign_bug_id, he]; exact hm)]
        simp only [beq_self_eq_true, if_true]
    | false =>
      have he : a.bug_id ≠ i := by
        rw [beq_eq_false_iff_ne] at hc; exact hc
      simp only [Function.comp_apply, hc, Bool.false_eq_true, if_false,
        List.mem_cons, he, false_or]

lemma mem_updateWhere_self {s : Store} {id : String} {f : Bug → Bug} {b : Bug}
    (hb : b ∈ updateWhere s id f) (hid : b.bug_id = id) :
    ∃ a ∈ s, b = f a := by
  rcases mem_updateWhere hb with ⟨a, ha, hba⟩
  cases hc : a.bug_id == id with
  | true =>
    refine ⟨a, ha, ?_⟩
    rw [hba]; simp [hc]
  | false =>
    have hba2 : b = a := by rw [hba]; simp [hc]
    rw [hba2] at hid
    rw [beq_eq_false_iff_ne] at hc
    exact absurd hid hc

/-- The store component of `_assign_bugs_to_me` as a single pass. -/
lemma assign_store_eq (s : Store) (bug_ids user : String) (now : Nat) :
    (assign_bugs_to_me s bug_ids user now).1 =
      s.map (fun b => if b.bug_id ∈ parseBugIds bug_ids then updAssign user now b else b) := by
  unfold assign_bugs_to_me
  rw [assign_fold_split, assign_fold_map]

/-! ### Concrete fixtures for counterexamples and witnesses -/

/-- A freshly submitted bug: status New, unassigned, no notes. -/
def baseBug : Bug :=
  { bug_id := "b1", user_id := "u1", username := "alice", session_id := some "s1",
    title := "T", description := "D", reproduction_steps := none, severity := none,
    category := none, system_info := some "sys", log_context := none,
    screenshot_path := none, screenshot_name := none, status := "New",
    assigned_to := none, assigned_at := none, progress_notes := none,
    reported_at := 1, updated_at := 1 }

/-- A bug already in the terminal status Resolved. -/
def resolvedBug : Bug := { baseBug with status := "Resolved" }

/-- A Resolved bug already assigned to bob. -/
def resolvedAssignedBug : Bug :=
  { baseBug with status := "Resolved", assigned_to := some "bob", assigned_at := some 3 }

/-- An in-progress bug with existing progress notes. -/
def notedBug : Bug :=
  { baseBug with status := "In Progress", assigned_to := some "alice", assigned_at := some 2, progress_notes := some "old findings" }

/-- A Good-to-Test bug awaiting the tester. -/
def gtBug : Bug :=
  { baseBug with status := "Good-to-Test", assigned_to := some "alice", assigned_at := some 2 }

/-- Good-to-Test, severity High, reported earlier (row inserted first). -/
def gtBugOld : Bug :=
  { baseBug with bug_id := "old1", status := "Good-to-Test", severity := some "High", reported_at := 1 }

/-- Good-to-Test, severity High, reported later (row inserted second). -/
def gtBugNew : Bug :=
  { baseBug with bug_id := "new1", status := "Good-to-Test", severity := some "High", reported_at := 2 }

/-! ### Claim C1 -/

/-- C1 counterexample: `update_bug_status` applied to a bug whose current
status is Resolved with the requested status "In Progress" performs the
transition Resolved → In Progress, which is not an edge of the spec 4.1
state machine; so not every observed status change is a valid edge. -/
theorem c1_counterexample :
    (getBug [resolvedBug] "b1").map Bug.status = some "Resolved" ∧
    (getBug (update_bug_status [resolvedBug] "b1" "In Progress" 9).1 "b1").map
      Bug.status = some "In Progress" ∧
    specValidEdge "Resolved" "In Progress" = false :=
  ⟨by decide, by decide, by decide⟩

/-- C1 amended: the lifecycle operations validate nothing about the current
status: `update_bug_status` writes exactly the requested status to the
matching row whatever its previous status was, and `_resolve_bug` writes
Resolved whatever the previous status was, so invalid edges such as
Resolved → In Progress are produced. -/
theorem c1_amended (s : Store) (id st : String) (now : Nat) :
    (∀ b ∈ (update_bug_status s id st now).1, b.bug_id = id → b.status = st) ∧
    (∀ b ∈ (resolve_bug s id now).1, b.bug_id = id → b.status = "Resolved") := by
  constructor
  · intro b hb hid
    rcases mem_updateWhere_self hb hid with ⟨a, _, hba⟩
    rw [hba]
  · intro b hb hid
    rcases mem_updateWhere_self hb hid with ⟨a, _, hba⟩
    rw [hba]

/-- C1 witness: the amended theorem applied to the one-row Resolved store,
requesting status "In Progress". -/
theorem c1_witness :
    ({ resolvedBug with status := "In Progress", updated_at := 9 } : Bug).status
      = "In Progress" :=
  (c1_amended [resolvedBug] "b1" "In Progress" 9).1
    { resolvedBug with status := "In Progress", updated_at := 9 }
    (by decide) (by decide)

/-! ### Claim C2 -/

/-- C2 counterexample: `_assign_bugs_to_me` run on a bug that is Resolved
and already assigned to bob still overwrites assignee and assigned_at and
sets status Assigned — the claimed New/Triaged-and-unassigned precondition
is not enforced. -/
theorem c2_counterexample :
    (getBug [resolvedAssignedBug] "b1").map Bug.status = some "Resolved" ∧
    (getBug [resolvedAssignedBug] "b1").map Bug.assigned_to = some (some "bob") ∧
    (getBug (assign_bugs_to_me [resolvedAssignedBug] "b1" "alice" 7).1 "b1").map
      Bug.status = some "Assigned" ∧
    (getBug (assign_bugs_to_me [resolvedAssignedBug] "b1" "alice" 7).1 "b1").map
      Bug.assigned_to = some (some "alice") ∧
    (getBug (assign_bugs_to_me [resolvedAssignedBug] "b1" "alice" 7).1 "b1").map
      Bug.assigned_at = some (some 7) :=
  ⟨by decide, by decide, by decide, by decide, by decide⟩

/-- C2 amended: the assignment operation sets assignee, assigned_at and
status Assigned for every bug whose id appears in the parsed id list,
regardless of the bug's current status or current assignee (no
New/Triaged/unassigned precondition is checked). -/
theorem c2_amended (s : Store) (bug_ids user : String) (now : Nat) (b : Bug)
    (hb : b ∈ (assign_bugs_to_me s bug_ids user now).1)
    (hid : b.bug_id ∈ parseBugIds bug_ids) :
    b.status = "Assigned" ∧ b.assigned_to = some user ∧ b.assigned_at = some now := by
  rw [assign_store_eq] at hb
  rcases List.mem_map.mp hb with ⟨a, _, hba⟩
  by_cases hm : a.bug_id ∈ parseBugIds bug_ids
  · rw [if_pos hm] at hba
    rw [← hba]
    exact ⟨rfl, rfl, rfl⟩
  · rw [if_neg hm] at hba
    rw [← hba] at hid
    exact absurd hid hm

/-- C2 witness: the amended theorem applied to a one-row New store. -/
theorem c2_witness :
    (updAssign "alice" 7 baseBug).status = "Assigned" ∧
    (updAssign "alice" 7 baseBug).assigned_to = some "alice" ∧
    (updAssign "alice" 7 baseBug).assigned_at = some 7 :=
  c2_amended [baseBug] "b1" "alice" 7 (updAssign "alice" 7 baseBug)
    (by decide) (by decide)

/-! ### Claim C3 -/

/-- C3 counterexample: assigning bug b1 to alice at time 1 and then again
at time 2 changes assigned_at from 1 to 2 — the second self-assignment is
not a no-op on assigned_at. -/
theorem c3_counterexample :
    (getBug (assign_bugs_to_me [baseBug] "b1" "alice" 1).1 "b1").map
      Bug.assigned_at = some (some 1) ∧
    (getBug (assign_bugs_to_me (assign_bugs_to_me [baseBug] "b1" "alice" 1).1
      "b1" "alice" 2).1 "b1").map Bug.assigned_at = some (some 2) ∧
    (getBug (assign_bugs_to_me (assign_bugs_to_me [baseBug] "b1" "alice" 1).1
      "b1" "alice" 2).1 "b1").map Bug.assigned_at ≠
    (getBug (assign_bugs_to_me [baseBug] "b1" "alice" 1).1 "b1").map
      Bug.assigned_at :=
  ⟨by decide, by decide, by decide⟩

/-- C3 amended: re-running the assignment is last-write-wins rather than a
no-op: assigning the same ids to the same actor a second time produces
exactly the store that a single assignment at the second timestamp would,
i.e. assignee and status are unchanged but assigned_at and updated_at are
refreshed to the newer timestamp. -/
theorem c3_amended (s : Store) (bug_ids user : String) (t1 t2 : Nat) :
    (assign_bugs_to_me (assign_bugs_to_me s bug_ids user t1).1 bug_ids user t2).1 =
      (assign_bugs_to_me s bug_ids user t2).1 := by
  rw [assign_store_eq, assign_store_eq, assign_store_eq, List.map_map]
  apply List.map_congr_left
  intro a _
  by_cases hm : a.bug_id ∈ parseBugIds bug_ids
  · simp only [Function.comp_apply, if_pos hm]
    rw [if_pos (by rw [updAssign_bug_id]; exact hm)]
    exact updAssign_updAssign user t1 t2 a
  · simp only [Function.comp_apply, if_neg hm]

/-! ### Claim C10 -/

/-- C10: the count `_assign_bugs_to_me` reports equals the number of
non-empty (stripped) ids in its input string — the loop increments the
count for every parsed id, with no check that a row with that id exists in
the store or was modified (the universally quantified store includes stores
containing none of the ids). -/
theorem c10_assigned_count (s : Store) (bug_ids user : String) (now : Nat) :
    (assign_bugs_to_me s bug_ids user now).2 = (parseBugIds bug_ids).length := by
  unfold assign_bugs_to_me
  rw [assign_fold_split]
  simp

/-! ### Claim C4 -/

/-- C4 counterexample: `_save_bug_progress` writes the submitted notes text
into `progress_notes` outright; with prior notes "old findings" and
submitted notes "x", the stored notes become "x" and the prior contents are
not a prefix of the new contents — the field is not append-only. -/
theorem c4_counterexample :
    (getBug (save_bug_progress [notedBug] [⟨"b1", "In Progress", "x"⟩] 5) "b1").map
      Bug.progress_notes = some (some "x") ∧
    ¬ strPrefixOf "old findings" "x" := by
  refine ⟨by decide, ?_⟩
  rintro ⟨t, h⟩
  have hl := congrArg String.length h
  have h1 : ("x" : String).length = 1 := rfl
  have h2 : ("old findings" : String).length = 12 := rfl
  rw [String.length_append, h1, h2] at hl
  omega

/-- C4 amended: `_send_bug_back_to_dev` does append (the prior notes remain
a prefix of the new notes, with the tester block concatenated after them,
and the status reverts to Assigned), but `_save_bug_progress` overwrites:
after a progress save the stored notes equal exactly the submitted text,
whatever was stored before. -/
theorem c4_amended (s : Store) (id tester ts reason st ntext : String)
    (now : Nat) (b : Bug) (hb : getBug s id = some b) :
    (getBug (send_bug_back_to_dev s id tester ts reason now) id).map
      Bug.progress_notes = some (some (notesStr b ++ sendBackNote ts tester reason)) ∧
    (getBug (send_bug_back_to_dev s id tester ts reason now) id).map
      Bug.status = some "Assigned" ∧
    strPrefixOf (notesStr b) (notesStr b ++ sendBackNote ts tester reason) ∧
    (getBug (save_bug_progress s [⟨id, st, ntext⟩] now) id).map
      Bug.progress_notes = some (some ntext) := by
  have hsend : send_bug_back_to_dev s id tester ts reason now =
      updateWhere s id (fun r =>
        { r with status := "Assigned",
                 progress_notes := some (notesStr b ++ sendBackNote ts tester reason),
                 updated_at := now }) := by
    unfold send_bug_back_to_dev
    rw [hb]
  have hsave : save_bug_progress s [⟨id, st, ntext⟩] now =
      updateWhere s id (fun r =>
        { r with status := st, progress_notes := some ntext, updated_at := now }) := by
    unfold save_bug_progress
    rw [List.foldl_cons, List.foldl_nil]
  have hg1 := getBug_updateWhere s id
    (fun r => { r with status := "Assigned", progress_notes := some (notesStr b ++ sendBackNote ts tester reason), updated_at := now })
    (fun r => rfl)
  have hg2 := getBug_updateWhere s id
    (fun r => { r with status := st, progress_notes := some ntext, updated_at := now })
    (fun r => rfl)
  rw [hsend, hsave, hg1, hg2, hb]
  exact ⟨rfl, rfl, ⟨sendBackNote ts tester reason, rfl⟩, rfl⟩

/-- C4 witness: the amended theorem applied to the one-row store holding a
bug with notes "old findings", sent back by bob and progress-saved. -/
theorem c4_witness :
    (getBug (send_bug_back_to_dev [notedBug] "b1" "bob" "TS" "still crashes" 6) "b1").map
      Bug.progress_notes
      = some (some (notesStr notedBug ++ sendBackNote "TS" "bob" "still crashes")) ∧
    (getBug (send_bug_back_to_dev [notedBug] "b1" "bob" "TS" "still crashes" 6) "b1").map
      Bug.status = some "Assigned" ∧
    strPrefixOf (notesStr notedBug) (notesStr notedBug ++ sendBackNote "TS" "bob" "still crashes") ∧
    (getBug (save_bug_progress [notedBug] [⟨"b1", "In Progress", "x"⟩] 6) "b1").map
      Bug.progress_notes = some (some "x") :=
  c4_amended [notedBug] "b1" "bob" "TS" "still crashes" "In Progress" "x" 6 notedBug
    (by decide)

/-! ### Claim C5 -/

/-- C5 counterexample: the single-record update operations called with an
id absent from the store (here the empty store) perform no mutation but
report the success log line, not a not-found result. -/
theorem c5_counterexample :
    update_bug_severity [] "nope" "High" 0 =
      ([], OpOutcome.successLog "✅ Bug nope severity updated to High") ∧
    update_bug_status [] "nope" "In Progress" 0 =
      ([], OpOutcome.successLog "✅ Bug nope status updated to In Progress") ∧
    resolve_bug [] "nope" 0 =
      ([], OpOutcome.successLog "✅ Bug nope marked as Resolved!") :=
  ⟨rfl, rfl, rfl⟩

/-- C5 amended: for an id not present in the store, `update_bug_severity`,
`update_bug_status` and `_resolve_bug` indeed perform no mutation (the
UPDATE matches no row), but each unconditionally reports its success log
line; none of them reports "not found". -/
theorem c5_amended (s : Store) (id sev st : String) (now : Nat)
    (h : id ∉ s.map Bug.bug_id) :
    (update_bug_severity s id sev now).1 = s ∧
    (update_bug_status s id st now).1 = s ∧
    (resolve_bug s id now).1 = s ∧
    (update_bug_severity s id sev now).2 =
      OpOutcome.successLog ("✅ Bug " ++ id ++ " severity updated to " ++
        (if sev = "" then "None" else sev)) ∧
    (update_bug_status s id st now).2 =
      OpOutcome.successLog ("✅ Bug " ++ id ++ " status updated to " ++ st) ∧
    (resolve_bug s id now).2 =
      OpOutcome.successLog ("✅ Bug " ++ id ++ " marked as Resolved!") :=
  ⟨updateWhere_id_not_mem h, updateWhere_id_not_mem h, updateWhere_id_not_mem h,
   rfl, rfl, rfl⟩

/-- C5 witness: the amended theorem applied to the empty store with id
"ghost". -/
theorem c5_witness :
    (update_bug_severity [] "ghost" "High" 0).1 = [] ∧
    (update_bug_status [] "ghost" "In Progress" 0).1 = [] ∧
    (resolve_bug [] "ghost" 0).1 = [] := by
  have h := c5_amended [] "ghost" "High" "In Progress" 0 (by decide)
  exact ⟨h.1, h.2.1, h.2.2.1⟩

/-! ### Claim C6 -/

/-- C6 counterexample: `ai_manage_bugs` on a mix of one existing id ("b1")
and one nonexistent id ("zz"), each with a severity update, reports two
applied entries and no errors — not one success and one error; the
nonexistent id is silently counted as applied. -/
theorem c6_counterexample :
    (ai_manage_bugs [baseBug]
      [⟨some "b1", some "High", none, none, none⟩,
       ⟨some "zz", some "Low", none, none, none⟩] 3).applied.length = 2 ∧
    (ai_manage_bugs [baseBug]
      [⟨some "b1", some "High", none, none, none⟩,
       ⟨some "zz", some "Low", none, none, none⟩] 3).errors = [] ∧
    (getBug (ai_manage_bugs [baseBug]
      [⟨some "b1", some "High", none, none, none⟩,
       ⟨some "zz", some "Low", none, none, none⟩] 3).store "b1").map
      Bug.severity = some (some "High") :=
  ⟨by decide, by decide, by decide⟩

/-- Computation of one `ai_manage_bugs` loop iteration for an item carrying
a non-empty bug id and severity only. -/
lemma processAiUpdate_sev (now : Nat) (acc : AiResult) (id v : String)
    (hid : ¬ id = "") (hv : ¬ v = "") :
    processAiUpdate now acc ⟨some id, some v, none, none, none⟩ =
      { store := updateWhere acc.store id
          (fun b => { b with severity := some v, updated_at := now }),
        applied := acc.applied ++
          ["Bug " ++ (id.data.take 8).asString ++ " severity → " ++ v],
        errors := acc.errors } := by
  unfold processAiUpdate
  simp only [if_neg hid, if_neg hv]

/-- C6 amended: with one item whose (non-empty) id exists in the store and
one whose (non-empty) id does not, each carrying a severity update, the
aggregate report of `ai_manage_bugs` contains two applied entries and no
errors; the existing bug's severity is updated and the failure of nothing
aborts anything — an error entry is produced only for a missing/empty
bug_id or a raising statement, never for a nonexistent id. -/
theorem c6_amended (s : Store) (id1 id2 sev1 sev2 : String) (now : Nat)
    (h1 : id1 ∈ s.map Bug.bug_id) (h2 : id2 ∉ s.map Bug.bug_id)
    (h1e : ¬ id1 = "") (h2e : ¬ id2 = "")
    (hs1 : ¬ sev1 = "") (hs2 : ¬ sev2 = "") :
    (ai_manage_bugs s [⟨some id1, some sev1, none, none, none⟩,
      ⟨some id2, some sev2, none, none, none⟩] now).applied.length = 2 ∧
    (ai_manage_bugs s [⟨some id1, some sev1, none, none, none⟩,
      ⟨some id2, some sev2, none, none, none⟩] now).errors = [] ∧
    (getBug (ai_manage_bugs s [⟨some id1, some sev1, none, none, none⟩,
      ⟨some id2, some sev2, none, none, none⟩] now).store id1).map
      Bug.severity = some (some sev1) := by
  unfold ai_manage_bugs
  rw [List.foldl_cons, List.foldl_cons, List.foldl_nil]
  rw [processAiUpdate_sev now _ id1 sev1 h1e hs1]
  rw [processAiUpdate_sev now _ id2 sev2 h2e hs2]
  refine ⟨by simp, rfl, ?_⟩
  have hnm : id2 ∉ (updateWhere s id1
      (fun b => { b with severity := some sev1, updated_at := now })).map Bug.bug_id := by
    have hmb := @updateWhere_map_bug_id s id1
      (fun b => { b with severity := some sev1, updated_at := now }) (fun b => rfl)
    rw [hmb]
    exact h2
  have hg := getBug_updateWhere s id1
    (fun b => { b with severity := some sev1, updated_at := now }) (fun b => rfl)
  rw [updateWhere_id_not_mem hnm, hg]
  rcases getBug_isSome h1 with ⟨a, ha⟩
  rw [ha]
  rfl

/-- C6 witness: the amended theorem applied to a one-row store with bug
"b1" and the nonexistent id "nothere". -/
theorem c6_witness :
    (ai_manage_bugs [gtBug] [⟨some "b1", some "Critical", none, none, none⟩,
      ⟨some "nothere", some "Low", none, none, none⟩] 4).applied.length = 2 ∧
    (ai_manage_bugs [gtBug] [⟨some "b1", some "Critical", none, none, none⟩,
      ⟨some "nothere", some "Low", none, none, none⟩] 4).errors = [] ∧
    (getBug (ai_manage_bugs [gtBug] [⟨some "b1", some "Critical", none, none, none⟩,
      ⟨some "nothere", some "Low", none, none, none⟩] 4).store "b1").map
      Bug.severity = some (some "Critical") :=
  c6_amended [gtBug] "b1" "nothere" "Critical" "Low" 4
    (by decide) (by decide) (by decide) (by decide) (by decide) (by decide)

/-! ### Claim C7 -/

instance : IsTotal Bug assignPickerOrder :=
  ⟨by intro a b; unfold assignPickerOrder; omega⟩

instance : IsTrans Bug assignPickerOrder :=
  ⟨by intro a b c hab hbc; unfold assignPickerOrder at *; omega⟩

instance : IsTotal Bug todoOrder :=
  ⟨by intro a b; unfold todoOrder; omega⟩

instance : IsTrans Bug todoOrder :=
  ⟨by intro a b c hab hbc; unfold todoOrder at *; omega⟩

instance : IsTotal Bug testerOrder :=
  ⟨by intro a b; unfold testerOrder; omega⟩

instance : IsTrans Bug testerOrder :=
  ⟨by intro a b c hab hbc; unfold testerOrder at *; omega⟩

/-- C7 counterexample: two Good-to-Test bugs of equal severity, the older
reported at 1 and the newer at 2, come back from the tester queue in
insertion order (older first), while the ordering shared by the picker and
the to-do list (severity rank ascending, then timestamp descending)
requires the newer first; the tester queue's own key relates the two rows
both ways, i.e. it ignores timestamps entirely. -/
theorem c7_counterexample :
    bugs_ready_for_testing [gtBugOld, gtBugNew] = [gtBugOld, gtBugNew] ∧
    testerOrder gtBugOld gtBugNew ∧
    testerOrder gtBugNew gtBugOld ∧
    ¬ assignPickerOrder gtBugOld gtBugNew ∧
    assignPickerOrder gtBugNew gtBugOld :=
  ⟨by decide, by decide, by decide, by decide, by decide⟩

/-- C7 amended: the unassigned-bug picker is sorted by severity rank
ascending then reported_at descending, and the per-actor to-do list by
severity rank ascending then assigned_at descending, but the tester queue
is sorted by severity rank alone — it has no secondary timestamp key. -/
theorem c7_amended (s : Store) (username client_id : String) :
    List.Sorted assignPickerOrder (assign_bugs_interactive s) ∧
    List.Sorted todoOrder (my_assigned_bugs_table s username client_id) ∧
    List.Sorted testerOrder (bugs_ready_for_testing s) :=
  ⟨List.sorted_insertionSort assignPickerOrder _,
   List.sorted_insertionSort todoOrder _,
   List.sorted_insertionSort testerOrder _⟩

/-! ### Claim C8 -/

lemma mem_takeLimit {limit : Int} {l : List Bug} {b : Bug}
    (h : b ∈ takeLimit limit l) : b ∈ l := by
  unfold takeLimit at h
  split at h
  · exact h
  · exact (List.take_sublist _ _).subset h

/-- C8: for every store, every choice of the optional status and severity
filters and every limit, `list_bug_reports` never returns a bug whose
status is Resolved or Dismissed — the `status NOT IN` clause is part of
every instance of its query. -/
theorem c8_list_open_excludes_terminal (s : Store)
    (statusF severityF : Option String) (limit : Int) (b : Bug)
    (hb : b ∈ list_bug_reports s statusF severityF limit) :
    b.status ≠ "Resolved" ∧ b.status ≠ "Dismissed" := by
  simp only [list_bug_reports] at hb
  have h2 := mem_takeLimit hb
  have h3 := (List.perm_insertionSort reportedDesc _).subset h2
  rcases List.mem_filter.mp h3 with ⟨-, hp⟩
  simp only [Bool.and_eq_true, Bool.not_eq_true', Bool.or_eq_false_iff,
    beq_eq_false_iff_ne] at hp
  exact ⟨hp.1.1.2, hp.1.1.1⟩

/-- C8 witness: the theorem applied to a one-row store of a New bug with no
filters and limit 20. -/
theorem c8_witness :
    baseBug.status ≠ "Resolved" ∧ baseBug.status ≠ "Dismissed" :=
  c8_list_open_excludes_terminal [baseBug] none none 20 baseBug (by decide)

/-! ### Claim C9 -/

/-- C9 counterexample: `submit_bug_report` called with empty title and
empty description still inserts a row (status New, empty title and
description) instead of reporting a validation error before store access,
and `_send_bug_back_to_dev` with an empty reason still mutates the record
(status reverts to Assigned and updated_at is refreshed); the emptiness
checks live only in the client-side form scripts. -/
theorem c9_counterexample :
    ((submit_bug_report [] "u1" "alice" "s1" "" "" none none "sys" "id9" 4).1).length = 1 ∧
    (getBug (submit_bug_report [] "u1" "alice" "s1" "" "" none none "sys" "id9" 4).1
      "id9").map Bug.title = some "" ∧
    (getBug (submit_bug_report [] "u1" "alice" "s1" "" "" none none "sys" "id9" 4).1
      "id9").map Bug.description = some "" ∧
    (getBug (submit_bug_report [] "u1" "alice" "s1" "" "" none none "sys" "id9" 4).1
      "id9").map Bug.status = some "New" ∧
    (getBug (send_bug_back_to_dev [gtBug] "b1" "bob" "TS" "" 6) "b1").map
      Bug.status = some "Assigned" ∧
    (getBug (send_bug_back_to_dev [gtBug] "b1" "bob" "TS" "" 6) "b1").map
      Bug.updated_at = some 6 :=
  ⟨by decide, by decide, by decide, by decide, by decide, by decide⟩

/-- C9 amended: the store-level operations perform no emptiness validation:
submitting with empty title and description appends a New row carrying the
empty fields to every store, and sending back with an empty reason still
performs its mutation on the addressed row. -/
theorem c9_amended (s : Store) (uid uname sid sysinfo new_id id tester ts : String)
    (now : Nat) (b : Bug) (hb : getBug s id = some b) :
    ((submit_bug_report s uid uname sid "" "" none none sysinfo new_id now).1).length
      = s.length + 1 ∧
    (((submit_bug_report s uid uname sid "" "" none none sysinfo new_id now).1).getLast?).map
      Bug.title = some "" ∧
    (((submit_bug_report s uid uname sid "" "" none none sysinfo new_id now).1).getLast?).map
      Bug.description = some "" ∧
    (((submit_bug_report s uid uname sid "" "" none none sysinfo new_id now).1).getLast?).map
      Bug.status = some "New" ∧
    (getBug (send_bug_back_to_dev s id tester ts "" now) id).map
      Bug.status = some "Assigned" := by
  have hsend : send_bug_back_to_dev s id tester ts "" now =
      updateWhere s id (fun r =>
        { r with status := "Assigned",
                 progress_notes := some (notesStr b ++ sendBackNote ts tester ""),
                 updated_at := now }) := by
    unfold send_bug_back_to_dev
    rw [hb]
  have hg := getBug_updateWhere s id
    (fun r => { r with status := "Assigned", progress_notes := some (notesStr b ++ sendBackNote ts tester ""), updated_at := now })
    (fun r => rfl)
  refine ⟨by simp [submit_bug_report], ?_, ?_, ?_, ?_⟩
  · rw [show (submit_bug_report s uid uname sid "" "" none none sysinfo new_id now).1
        = s ++ [_] from rfl, List.getLast?_concat]
    rfl
  · rw [show (submit_bug_report s uid uname sid "" "" none none sysinfo new_id now).1
        = s ++ [_] from rfl, List.getLast?_concat]
    rfl
  · rw [show (submit_bug_report s uid uname sid "" "" none none sysinfo new_id now).1
        = s ++ [_] from rfl, List.getLast?_concat]
    rfl
  · rw [hsend, hg, hb]
    rfl

/-- C9 witness: the amended theorem applied to a one-row Good-to-Test
store. -/
theorem c9_witness :
    ((submit_bug_report [gtBug] "u1" "alice" "s1" "" "" none none "sys" "id9" 7).1).length = 2 ∧
    (((submit_bug_report [gtBug] "u1" "alice" "s1" "" "" none none "sys" "id9" 7).1).getLast?).map
      Bug.title = some "" ∧
    (((submit_bug_report [gtBug] "u1" "alice" "s1" "" "" none none "sys" "id9" 7).1).getLast?).map
      Bug.description = some "" ∧
    (((submit_bug_report [gtBug] "u1" "alice" "s1" "" "" none none "sys" "id9" 7).1).getLast?).map
      Bug.status = some "New" ∧
    (getBug (send_bug_back_to_dev [gtBug] "b1" "bob" "TS" "" 7) "b1").map
      Bug.status = some "Assigned" :=
  c9_amended [gtBug] "u1" "alice" "s1" "sys" "id9" "b1" "bob" "TS" 7 gtBug (by decide)
